import Mathlib

/-!
Shallow embedding of `static/script.js` (browser UI for a tic-tac-toe game)
and proofs about its win detector, confetti engine, win-line animator,
event handlers and state-update logic.

Conventions of the embedding:
* A board cell holds the string `""`, `"X"` or `"O"`; we model this as
  `Option Mark` (`none` = empty string, which is JS-falsy).
* The server's `winner` field is `null`, `"X"`, `"O"` or `"Tie"`; we model
  it as `Option Winner` (`none` = `null`; every string value is JS-truthy).
* `Math.random()` calls are modelled by an explicit stream `rand : ℕ → ℚ`
  with values in `[0, 1)`; each particle consumes eight consecutive values,
  in the order of the field initialisers in the source.
* DOM side effects (network calls, status text, animations) are modelled as
  explicit effect records returned by the handler functions.
-/

namespace TicTacToe

/-- A mark on the board: the string `"X"` or `"O"`. -/
inductive Mark
  | X
  | O
deriving DecidableEq, Repr

/-- A board cell: empty string (JS-falsy) or a mark. -/
abbrev Cell := Option Mark

/-- The board: a 9-element array of cells (`state.board`). -/
abbrev Board := Fin 9 → Cell

/-- The server's declared winner value: the string `"X"`, `"O"` or `"Tie"`. -/
inductive Winner
  | X
  | O
  | Tie
deriving DecidableEq, Repr

/-- The `state` object of a server response:
`\x7bboard, current_player, winner\x7d`. -/
structure GameState where
  board : Board
  current_player : Mark
  winner : Option Winner

/-- A line of the board: a triple of cell indices. -/
abbrev Triple := Fin 9 × Fin 9 × Fin 9

/-- The fixed list of 8 lines scanned by `findWinningTriple`:
3 rows, then 3 columns, then 2 diagonals (source line 214). -/
def LINES : List Triple :=
  [(0, 1, 2), (3, 4, 5), (6, 7, 8),
   (0, 3, 6), (1, 4, 7), (2, 5, 8),
   (0, 4, 8), (2, 4, 6)]

/-- The loop-body condition of `findWinningTriple`:
`b[a] && b[a] === b[b1] && b[a] === b[c]` (source line 217). -/
def lineWins (b : Board) (l : Triple) : Bool :=
  (b l.1).isSome && b l.1 == b l.2.1 && b l.1 == b l.2.2

/-- `findWinningTriple(b)` (source lines 213–220): iterate over `LINES` and
return the first line whose condition holds, else `null`. -/
def findWinningTriple (b : Board) : Option Triple :=
  LINES.find? (lineWins b)

/-- `List.find?` returns an element satisfying the predicate such that every
element strictly before it fails the predicate. -/
theorem find?_first {α : Type} (p : α → Bool) :
    ∀ (l : List α) (a : α), l.find? p = some a →
      p a = true ∧ ∃ pre post, l = pre ++ a :: post ∧ ∀ x ∈ pre, p x = false := by
  intro l
  induction l with
  | nil => intro a h; simp [List.find?] at h
  | cons x xs ih =>
    intro a h
    by_cases hx : p x = true
    · rw [List.find?_cons_of_pos _ hx] at h
      cases h
      exact ⟨hx, [], xs, rfl, by simp⟩
    · rw [List.find?_cons_of_neg _ hx] at h
      obtain ⟨hpa, pre, post, hsplit, hpre⟩ := ih a h
      refine ⟨hpa, x :: pre, post, by simp [hsplit], ?_⟩
      intro y hy
      rcases List.mem_cons.mp hy with hy | hy
      · subst hy; exact Bool.eq_false_iff.mpr hx
      · exact hpre y hy

/-- **C1.** For every 9-element board, `findWinningTriple` returns the first
line, in the fixed scan order (3 rows, 3 columns, 2 diagonals, the order of
`LINES`), whose three cells are non-empty and identical; if no line is fully
owned it returns `none`. -/
theorem findWinningTriple_first_full_line (b : Board) :
    (findWinningTriple b = none → ∀ l ∈ LINES, lineWins b l = false) ∧
    (∀ l, findWinningTriple b = some l →
      l ∈ LINES ∧ lineWins b l = true ∧
      ∃ pre post, LINES = pre ++ l :: post ∧ ∀ l₂ ∈ pre, lineWins b l₂ = false) := by
  constructor
  · intro hnone l hl
    have := List.find?_eq_none.mp hnone l hl
    exact Bool.eq_false_iff.mpr this
  · intro l hsome
    refine ⟨List.mem_of_find?_eq_some hsome, ?_, ?_⟩
    · exact (find?_first (lineWins b) LINES l hsome).1
    · exact (find?_first (lineWins b) LINES l hsome).2

/-- A concrete board whose top row is owned by X and is otherwise empty. -/
def boardRow0 : Board := fun i => if i.val < 3 then some Mark.X else none

/-- Witness for C1: on the board `["X","X","X","","","","","",""]` the
detector returns the top row, which is a winning line. -/
theorem findWinningTriple_first_full_line_witness :
    lineWins boardRow0 (0, 1, 2) = true ∧ (0, 1, 2) ∈ LINES :=
  ⟨((findWinningTriple_first_full_line boardRow0).2 (0, 1, 2) (by decide)).2.1,
   ((findWinningTriple_first_full_line boardRow0).2 (0, 1, 2) (by decide)).1⟩

/-- The `SVG_X` markup string (source line 43). -/
def SVG_X : String :=
  "<svg class=\"icon-x\" viewBox=\"0 0 64 64\"><line x1=\"12\" y1=\"12\" x2=\"52\" y2=\"52\" stroke=\"white\" stroke-width=\"6\" stroke-linecap=\"round\"/><line x1=\"52\" y1=\"12\" x2=\"12\" y2=\"52\" stroke=\"white\" stroke-width=\"6\" stroke-linecap=\"round\"/></svg>"

/-- The `SVG_O` markup string (source line 44). -/
def SVG_O : String :=
  "<svg class=\"icon-o\" viewBox=\"0 0 64 64\"><circle cx=\"32\" cy=\"32\" r=\"18\" fill=\"none\" stroke=\"white\" stroke-width=\"6\" /></svg>"

/-- Characters of a markup string that lie outside any tag (between `>` and
the next `<`). For markup with no text nodes and no entities — such as
`SVG_X` / `SVG_O` — this is exactly the DOM `textContent` of an element whose
`innerHTML` was set to the string. -/
def stripTags : List Char → Bool → List Char
  | [], _ => []
  | c :: rest, inTag =>
    if c = '<' then stripTags rest true
    else if c = '>' then stripTags rest false
    else if inTag then stripTags rest true
    else c :: stripTags rest false

/-- DOM `textContent` of an element whose `innerHTML` is `html`. -/
def textContent (html : String) : String := ⟨stripTags html.data false⟩

/-- JavaScript `String.prototype.trim`: strip leading and trailing
whitespace. -/
def jsTrim (s : String) : String :=
  ⟨((s.data.dropWhile Char.isWhitespace).reverse.dropWhile
      Char.isWhitespace).reverse⟩

/-- `renderMark(cellEl, mark)` (source lines 252–260, the second definition,
which overrides the first by JS function hoisting): the resulting
`innerHTML` of the cell element. Empty mark clears the cell; otherwise the
cell holds the corresponding SVG markup. -/
def renderMark : Cell → String
  | none => ""
  | some Mark.X => SVG_X
  | some Mark.O => SVG_O

/-- The cell click handler (source lines 224–227):
`if (cell.textContent.trim() !== '') return; postMove(idx);`.
Returns `true` iff `postMove` is invoked (a network call is issued), given
the cell's current `innerHTML`. -/
def clickPostsMove (cellHtml : String) : Bool :=
  jsTrim (textContent cellHtml) == ""

set_option maxRecDepth 8000 in
/-- **C2.** Evaluation of the click guard on an occupied cell: a mark is
rendered as SVG markup whose `textContent` is empty, so the guard
`cell.textContent.trim() !== ''` never fires and `postMove` IS invoked on a
cell holding `"X"` or `"O"` — contradicting the claim that clicking an
occupied cell issues no network call. -/
theorem click_on_occupied_cell_posts_move :
    clickPostsMove (renderMark (some Mark.X)) = true ∧
    clickPostsMove (renderMark (some Mark.O)) = true ∧
    textContent SVG_X = "" ∧ textContent SVG_O = "" := by
  constructor
  · rfl
  constructor
  · rfl
  constructor
  · rfl
  · rfl

/-- The keys handled by the cell keydown handler. -/
inductive Key
  | enter
  | space
  | arrowRight
  | arrowLeft
  | arrowDown
  | arrowUp
  | other
deriving DecidableEq, Repr, Fintype

/-- The focus movement of the cell keydown handler (source lines 229–237):
`col = idx % 3`, `row = floor(idx / 3)`; each arrow key calls `focusCell`
with the wrapped index; Enter/Space click the cell and move no focus. -/
def keydownFocusTarget (idx : ℕ) (key : Key) : Option ℕ :=
  let col := idx % 3
  let row := idx / 3
  match key with
  | Key.arrowRight => some (row * 3 + (col + 1) % 3)
  | Key.arrowLeft => some (row * 3 + (col + 2) % 3)
  | Key.arrowDown => some ((row + 1) % 3 * 3 + col)
  | Key.arrowUp => some ((row + 2) % 3 * 3 + col)
  | _ => none

/-- **C6.** For every focused cell index `i` (0..8) with `row = ⌊i/3⌋` and
`col = i % 3`, the arrow keys move focus with toroidal wraparound on both
axes: ArrowRight → `row*3 + (col+1)%3`, ArrowLeft → `row*3 + (col+2)%3`,
ArrowDown → `((row+1)%3)*3 + col`, ArrowUp → `((row+2)%3)*3 + col`; every
target is again a valid index 0..8, and ArrowRight from index 2 focuses
index 0. -/
theorem keydown_arrow_wraparound (i : Fin 9) :
    keydownFocusTarget i.val Key.arrowRight
      = some (i.val / 3 * 3 + (i.val % 3 + 1) % 3) ∧
    keydownFocusTarget i.val Key.arrowLeft
      = some (i.val / 3 * 3 + (i.val % 3 + 2) % 3) ∧
    keydownFocusTarget i.val Key.arrowDown
      = some ((i.val / 3 + 1) % 3 * 3 + i.val % 3) ∧
    keydownFocusTarget i.val Key.arrowUp
      = some ((i.val / 3 + 2) % 3 * 3 + i.val % 3) ∧
    (∀ k : Key, (keydownFocusTarget i.val k).all (fun j => j < 9) = true) ∧
    keydownFocusTarget 2 Key.arrowRight = some 0 := by
  revert i; decide

/-- The fixed confetti color palette (source line 101). -/
def colors : List String :=
  ["#7c5cff", "#4be1a2", "#ff6b6b", "#4fc3f7", "#ffd166"]

/-- Fallback color (never reached: the random index is always in range). -/
def defaultColor : String := ""

/-- A confetti particle (the object literal at source lines 104–113). -/
structure Particle where
  x : ℚ
  y : ℚ
  vx : ℚ
  vy : ℚ
  s : ℚ
  c : String
  r : ℚ
  vr : ℚ
deriving DecidableEq, Repr

/-- The particle-seeding loop of `launchConfetti` (source lines 99–114):
`count = Math.min(120, Math.floor(W/8))` particles, each initialised from
eight consecutive `Math.random()` draws (in the source's field order:
x, y, vx, vy, s, c, r, vr). `W`, `H` are the canvas width and height,
non-negative integers. -/
def launchConfettiPieces (W H : ℕ) (rand : ℕ → ℚ) : List Particle :=
  let count := min 120 (W / 8)
  (List.range count).map fun i =>
    { x := rand (8 * i) * W
      y := -20 - rand (8 * i + 1) * H * (2 / 10)
      vx := (rand (8 * i + 2) - 5 / 10) * 6
      vy := 2 + rand (8 * i + 3) * 6
      s := 6 + rand (8 * i + 4) * 8
      c := colors.getD (rand (8 * i + 5) * colors.length).floor.toNat
        defaultColor
      r := rand (8 * i + 6) * 360
      vr := (rand (8 * i + 7) - 5 / 10) * 8 }

/-- **C3.** On every confetti trigger, the number of particles created is
`min(120, ⌊W/8⌋)`, and — whenever the random stream takes values in `[0,1)`
as `Math.random()` does — every particle's initial `y` is strictly
negative (above the visible canvas). -/
theorem launchConfetti_count_and_initial_y (W H : ℕ) (rand : ℕ → ℚ)
    (hrand : ∀ i, 0 ≤ rand i ∧ rand i < 1) :
    (launchConfettiPieces W H rand).length = min 120 (W / 8) ∧
    ∀ p ∈ launchConfettiPieces W H rand, p.y < 0 := by
  constructor
  · simp [launchConfettiPieces]
  · intro p hp
    simp only [launchConfettiPieces, List.mem_map, List.mem_range] at hp
    obtain ⟨i, _, rfl⟩ := hp
    have h0 : (0 : ℚ) ≤ rand (8 * i + 1) := (hrand (8 * i + 1)).1
    have hH : (0 : ℚ) ≤ (H : ℚ) := Nat.cast_nonneg H
    have hprod : (0 : ℚ) ≤ rand (8 * i + 1) * H * (2 / 10) := by
      apply mul_nonneg (mul_nonneg h0 hH)
      norm_num
    simp only
    linarith

/-- Witness for C3: a 800×600 canvas with the all-zero random stream yields
100 particles, each strictly above the canvas. -/
theorem launchConfetti_count_and_initial_y_witness :
    (launchConfettiPieces 800 600 (fun _ => 0)).length = min 120 (800 / 8) ∧
    ∀ p ∈ launchConfettiPieces 800 600 (fun _ => 0), p.y < 0 :=
  launchConfetti_count_and_initial_y 800 600 (fun _ => 0)
    (fun _ => ⟨le_refl 0, by norm_num⟩)

/-- The mutable per-run state of the confetti `frame` callback: the tick
counter `t` and the particle array `pieces`. -/
structure FrameState where
  t : ℕ
  pieces : List Particle
deriving DecidableEq, Repr

/-- One particle update inside `frame` (source lines 120–122):
`p.x += p.vx; p.y += p.vy; p.r += p.vr`. -/
def stepParticle (p : Particle) : Particle :=
  { p with x := p.x + p.vx, y := p.y + p.vy, r := p.r + p.vr }

/-- One execution of `frame` as a state transformer (source lines 116–129):
increment `t`, advance every particle. -/
def frameStep (st : FrameState) : FrameState :=
  { t := st.t + 1, pieces := st.pieces.map stepParticle }

/-- The reschedule condition of `frame` (source line 130), evaluated on the
post-increment state: `t < 220` schedules another tick via
`requestAnimationFrame`. -/
def reschedules (st : FrameState) : Bool := st.t < 220

/-- A canvas operation performed by `frame`. `draw p` stands for the
save/translate/rotate/fillRect/restore sequence for particle `p`. -/
inductive CanvasOp
  | clear (x y w h : ℚ)
  | draw (p : Particle)
deriving DecidableEq, Repr

/-- The canvas operations of one `frame` execution starting from state `st`
(source lines 116–135): full-canvas clear, draw every (updated) particle,
and — when the tick budget is exhausted (no reschedule) — a final
full-canvas clear. -/
def frameOps (st : FrameState) (W H : ℕ) : List CanvasOp :=
  let st2 := frameStep st
  CanvasOp.clear 0 0 W H :: st2.pieces.map CanvasOp.draw ++
    (if reschedules st2 then [] else [CanvasOp.clear 0 0 W H])

/-- The state at the start of the first `frame` execution: `t = 0` and the
freshly seeded particle array (source line 115). -/
def initFrameState (pieces : List Particle) : FrameState :=
  { t := 0, pieces := pieces }

/-- The confetti state after `n` executions of `frame`. -/
def stateAfter (pieces : List Particle) (n : ℕ) : FrameState :=
  frameStep^[n] (initFrameState pieces)

theorem stateAfter_t (pieces : List Particle) (n : ℕ) :
    (stateAfter pieces n).t = n := by
  induction n with
  | zero => rfl
  | succ k ih =>
    unfold stateAfter at ih ⊢
    rw [Function.iterate_succ_apply', frameStep]
    simp [ih]

/-- **C4.** For every confetti run: the `n`-th execution of `frame`
(`n ≥ 1`, taking `stateAfter (n-1)` to `stateAfter n`) schedules a further
tick iff `n < 220` — so `frame` runs exactly 220 times and schedules
nothing afterwards — and the canvas operations of the 220th (final)
execution end with a full-canvas clear. -/
theorem confetti_tick_budget (pieces : List Particle) (W H : ℕ) :
    (∀ n : ℕ, reschedules (stateAfter pieces n) = true ↔ n < 220) ∧
    (frameOps (stateAfter pieces 219) W H).getLast?
      = some (CanvasOp.clear 0 0 W H) := by
  constructor
  · intro n
    simp [reschedules, stateAfter_t]
  · have h219 : (stateAfter pieces 219).t = 219 := stateAfter_t pieces 219
    have h220 : reschedules (frameStep (stateAfter pieces 219)) = false := by
      simp [reschedules, frameStep, h219]
    simp only [frameOps, h220, Bool.false_eq_true, if_false]
    rw [List.getLast?_concat]

/-- A DOM bounding rectangle (`getBoundingClientRect()`). -/
structure Rect where
  left : ℚ
  right : ℚ
  top : ℚ
  bottom : ℚ
deriving DecidableEq, Repr

/-- The final attribute values of the win-line SVG element. -/
structure LineCoords where
  x1 : ℚ
  y1 : ℚ
  x2 : ℚ
  y2 : ℚ
deriving DecidableEq, Repr

/-- `animateWinLine(aIndex, bIndex)` (source lines 67–94): the final
`x1,y1,x2,y2` of the win-line element after the timeout callback has moved
the second endpoint. `boardRect` is the board's bounding box, `cellRect i`
the bounding box of cell `i`. -/
def animateWinLine (boardRect : Rect) (cellRect : Fin 9 → Rect)
    (aIndex bIndex : Fin 9) : LineCoords :=
  let a := cellRect aIndex
  let b := cellRect bIndex
  let ax := (a.left + a.right) / 2 - boardRect.left
  let ay := (a.top + a.bottom) / 2 - boardRect.top
  let bx := (b.left + b.right) / 2 - boardRect.left
  let byv := (b.top + b.bottom) / 2 - boardRect.top
  { x1 := ax, y1 := ay, x2 := bx, y2 := byv }

/-- Spec-side notion for C8: the center of `cell` relative to the top-left
corner of the bounding box `r`. -/
def centerRel (r cell : Rect) : ℚ × ℚ :=
  ((cell.left + cell.right) / 2 - r.left, (cell.top + cell.bottom) / 2 - r.top)

/-- `state.winner && state.winner !== 'Tie'` (source line 196): JS-truthy
winner other than the string `"Tie"`. -/
def isNonTieWin : Option Winner → Bool
  | none => false
  | some w => !(w == Winner.Tie)

/-- String rendering of a mark. -/
def markStr : Mark → String
  | Mark.X => "X"
  | Mark.O => "O"

/-- String rendering of a winner value. -/
def winnerStr : Winner → String
  | Winner.X => "X"
  | Winner.O => "O"
  | Winner.Tie => "Tie"

/-- The observable effects of one `updateFromState(state)` call. -/
structure UpdateEffects where
  rendered : Fin 9 → String
  status : String
  lineSearched : Bool
  lineAnim : Option (Fin 9 × Fin 9)
  confetti : Bool
  scoreX : ℕ
  scoreO : ℕ

/-- `updateFromState(state)` (source lines 189–210), with the local
scoreboard (`scoreXEl`/`scoreOEl` text, as numbers) passed in and returned
explicitly. Inside the non-Tie-win block the code searches the winning
triple, animates the line between its first and third cells when one is
found, launches confetti, and increments the matching local score. -/
def updateFromState (st : GameState) (scoreX scoreO : ℕ) : UpdateEffects :=
  let win := isNonTieWin st.winner
  { rendered := fun i => renderMark (st.board i)
    status :=
      match st.winner with
      | none => "Player " ++ markStr st.current_player ++ "\x27s turn"
      | some Winner.Tie => "It\x27s a tie!"
      | some w => winnerStr w ++ " wins!"
    lineSearched := win
    lineAnim :=
      if win then (findWinningTriple st.board).map (fun l => (l.1, l.2.2))
      else none
    confetti := win
    scoreX :=
      if win then (if st.winner = some Winner.X then scoreX + 1 else scoreX)
      else scoreX
    scoreO :=
      if win then (if st.winner = some Winner.O then scoreO + 1 else scoreO)
      else scoreO }

/-- **C5.** For every server state whose winner is `"Tie"`,
`updateFromState` searches no winning line, starts no line animation and
launches no confetti. -/
theorem tie_no_line_no_confetti (st : GameState) (sx so : ℕ)
    (h : st.winner = some Winner.Tie) :
    (updateFromState st sx so).lineSearched = false ∧
    (updateFromState st sx so).lineAnim = none ∧
    (updateFromState st sx so).confetti = false := by
  simp [updateFromState, isNonTieWin, h]

/-- A fully filled board with alternating marks and no complete line:
`["X","O","X","X","O","O","O","X","X"]`. -/
def boardTie : Board := fun i =>
  [some Mark.X, some Mark.O, some Mark.X,
   some Mark.X, some Mark.O, some Mark.O,
   some Mark.O, some Mark.X, some Mark.X].getD i.val none

/-- Witness for C5: a concrete tie state triggers no line search, no line
animation and no confetti. -/
theorem tie_no_line_no_confetti_witness :
    (updateFromState ⟨boardTie, Mark.X, some Winner.Tie⟩ 0 0).lineSearched
      = false ∧
    (updateFromState ⟨boardTie, Mark.X, some Winner.Tie⟩ 0 0).lineAnim
      = none ∧
    (updateFromState ⟨boardTie, Mark.X, some Winner.Tie⟩ 0 0).confetti
      = false :=
  tie_no_line_no_confetti ⟨boardTie, Mark.X, some Winner.Tie⟩ 0 0 rfl

/-- **C8.** For every non-Tie win whose detected winning triple is
`(a, m, c)`, `updateFromState` calls the line animator with the triple's
first and third indices, and for every layout the animated segment's
endpoints are the centers of cells `a` and `c` relative to the board's
bounding box. -/
theorem win_line_endpoints (st : GameState) (sx so : ℕ)
    (hw : isNonTieWin st.winner = true) (l : Triple)
    (ht : findWinningTriple st.board = some l) :
    (updateFromState st sx so).lineAnim = some (l.1, l.2.2) ∧
    ∀ (boardRect : Rect) (cellRect : Fin 9 → Rect),
      animateWinLine boardRect cellRect l.1 l.2.2 =
        { x1 := (centerRel boardRect (cellRect l.1)).1
          y1 := (centerRel boardRect (cellRect l.1)).2
          x2 := (centerRel boardRect (cellRect l.2.2)).1
          y2 := (centerRel boardRect (cellRect l.2.2)).2 } := by
  constructor
  · simp [updateFromState, hw, ht]
  · intro boardRect cellRect
    rfl

/-- A 300×300 board layout: cell `i` occupies the 100×100 square at column
`i % 3`, row `i / 3`. -/
def demoCellRects : Fin 9 → Rect := fun i =>
  let c : ℕ := i.val % 3
  let r : ℕ := i.val / 3
  { left := (c : ℚ) * 100
    right := (c : ℚ) * 100 + 100
    top := (r : ℚ) * 100
    bottom := (r : ℚ) * 100 + 100 }

/-- The board bounding box of the demo layout. -/
def demoBoardRect : Rect :=
  { left := 0, right := 300, top := 0, bottom := 300 }

/-- Witness for C8: for the board `["X","X","X","","","","","",""]` with
winner `"X"` the detector returns the top row `(0,1,2)`, the animator is
invoked on cells 0 and 2, and in the demo layout the endpoints are the
centers `(50,50)` and `(250,50)` of those cells. -/
theorem win_line_endpoints_witness :
    (updateFromState ⟨boardRow0, Mark.O, some Winner.X⟩ 0 0).lineAnim
      = some (0, 2) ∧
    animateWinLine demoBoardRect demoCellRects 0 2 =
      { x1 := 50, y1 := 50, x2 := 250, y2 := 50 } := by
  have h := win_line_endpoints ⟨boardRow0, Mark.O, some Winner.X⟩ 0 0
    (by decide) (0, 1, 2) (by decide)
  refine ⟨h.1, (h.2 demoBoardRect demoCellRects).trans ?_⟩
  simp only [centerRel, demoBoardRect, demoCellRects, LineCoords.mk.injEq]
  norm_num

/-- **C9.** Every applied state with winner `"X"` (resp. `"O"`) increments
the corresponding local score counter by exactly one; `"Tie"` or no winner
leaves both counters unchanged. The new counters are a pure function of the
previous local counters and the winner field — the server state carries no
scores, so scores are never fetched. -/
theorem scores_increment_locally (st : GameState) (sx so : ℕ) :
    (updateFromState st sx so).scoreX
      = sx + (if st.winner = some Winner.X then 1 else 0) ∧
    (updateFromState st sx so).scoreO
      = so + (if st.winner = some Winner.O then 1 else 0) := by
  rcases hw : st.winner with _ | w
  · simp [updateFromState, isNonTieWin, hw]
  · cases w <;> simp [updateFromState, isNonTieWin, hw]

/-- The observable effects of `requestAiMove` once the response has been
parsed: which state (if any) is passed to `updateFromState`, what status
message (if any) is set, and whether the success beep plays. -/
structure AiMoveEffects where
  applied : Option GameState
  statusSet : Option String
  beeped : Bool

/-- The response handling of `requestAiMove` (source lines 166–175):
`if (!res.ok)\x7b if (data.state) updateFromState(data.state); return; \x7d`
— on failure an included state payload is still applied and nothing else
happens; on success the state is applied and the beep plays. -/
def handleAiMoveResponse (ok : Bool) (stateField : Option GameState) :
    AiMoveEffects :=
  if !ok then
    match stateField with
    | some s => { applied := some s, statusSet := none, beeped := false }
    | none => { applied := none, statusSet := none, beeped := false }
  else
    { applied := stateField, statusSet := none, beeped := true }

/-- **C7.** For every AI-move response with a failure status: if the body
includes a state payload it is still applied, otherwise nothing is applied;
in both cases no status message is set and no beep plays (the failure is
silently ignored). -/
theorem ai_move_failure_handling (stateField : Option GameState)
    (ok : Bool) (h : ok = false) :
    (handleAiMoveResponse ok stateField).applied = stateField ∧
    (handleAiMoveResponse ok stateField).statusSet = none ∧
    (handleAiMoveResponse ok stateField).beeped = false := by
  subst h
  cases stateField <;> simp [handleAiMoveResponse]

/-- Witness for C7: a failed AI-move response carrying a concrete state
payload applies exactly that payload, sets no status and plays no beep. -/
theorem ai_move_failure_handling_witness :
    (handleAiMoveResponse false
        (some ⟨boardTie, Mark.X, some Winner.Tie⟩)).applied
      = some ⟨boardTie, Mark.X, some Winner.Tie⟩ ∧
    (handleAiMoveResponse false
        (some ⟨boardTie, Mark.X, some Winner.Tie⟩)).statusSet = none ∧
    (handleAiMoveResponse false
        (some ⟨boardTie, Mark.X, some Winner.Tie⟩)).beeped = false :=
  ai_move_failure_handling (some ⟨boardTie, Mark.X, some Winner.Tie⟩)
    false rfl

/-- The observable effects of `postMove` once the response has been
parsed. -/
structure PostMoveEffects where
  applied : Option GameState
  statusSet : Option String
  aiRequested : Bool

/-- The fallback rejection message of `postMove` (source line 159). -/
def moveRejectedMsg : String := "Move rejected"

/-- The response handling of `postMove` (source lines 157–163): a rejected
move sets the server-provided reason (or the fallback message) and stops; a
successful move applies the state and requests an AI move iff
`!data.state.winner` (the winner field is `null`; every winner string,
`'Tie'` included, is truthy). -/
def handlePostMoveResponse (ok : Bool) (errorMsg : Option String)
    (st : GameState) : PostMoveEffects :=
  if !ok then
    { applied := none
      statusSet := some (errorMsg.getD moveRejectedMsg)
      aiRequested := false }
  else
    { applied := some st, statusSet := none, aiRequested := st.winner.isNone }

/-- **C10.** After every successful player-move response, an AI move is
requested iff the returned state's winner field is `null`; any non-null
winner — `"Tie"` included — suppresses the AI-move request. -/
theorem ai_requested_iff_no_winner (errorMsg : Option String)
    (st : GameState) :
    ((handlePostMoveResponse true errorMsg st).aiRequested = true
      ↔ st.winner = none) ∧
    ((handlePostMoveResponse true errorMsg st).aiRequested = false
      ↔ ∃ w, st.winner = some w) := by
  rcases hw : st.winner with _ | w <;>
    simp [handlePostMoveResponse, hw]

end TicTacToe
